import Mathlib

/-!
Verification of the subscribable-container and guarded-state-machine stores
of the svelte-custom-stores demo repository.

Each store variant from `src/` is shallowly embedded: the mutable
closure state of a store becomes a structure, each method becomes a function returning
the updated state together with the observable effects it produced (listener
invocations, backing-store calls), and JavaScript exceptions become
`Except JsError`.  Listeners are identified by natural numbers; a
notification is recorded as the pair (listener id, value passed).
-/

/-- JavaScript exceptions that the embedded code can raise. -/
inductive JsError where
  | referenceError (name : String)
  | typeError (msg : String)
  | thrown (msg : String)
deriving DecidableEq

namespace Homemade

/-!
Embedding of `src/src/homemade-store.js` (`homemadeStore`).  The closure
captures `subscribers` (an array of listener callbacks, here listener ids)
and `state` (the current value).
-/

structure Store (V : Type) where
  subscribers : List Nat
  state : V
deriving DecidableEq

/-- Construction: `homemadeStore(value)` starts with no subscribers and
`state = value` (lines 7-8). -/
def homemadeStore {V : Type} (value : V) : Store V :=
  { subscribers := [], state := value }

/-- Method `subscribe(listener)` (lines 11-19): pushes the listener onto
`subscribers` and returns.  The body performs no call to `listener`, so the
list of notifications emitted during the call is empty. -/
def subscribe {V : Type} (s : Store V) (listener : Nat) :
    Store V × List (Nat × V) :=
  ({ s with subscribers := s.subscribers ++ [listener] }, [])

/-- The unsubscribe closure returned by `subscribe` (lines 13-18).  Its body
is `const index = subscribers.indexOf(subscriber); if (index !== -1)
subscribers.splice(index, 1)`.  The identifier `subscriber` is not bound
anywhere in the file (the parameter is named `listener`), so evaluating it
throws `ReferenceError: subscriber is not defined` before `indexOf` runs,
on every invocation. -/
def unsubscribe {V : Type} (_s : Store V) : Except JsError (Store V) :=
  .error (.referenceError ("subscriber"))

/-- The unsubscribe closure as evidently intended (`indexOf(listener)`):
remove the first registration of `listener`, a no-op when absent. -/
def unsubscribeIntended {V : Type} (s : Store V) (listener : Nat) : Store V :=
  match s.subscribers.indexOf? listener with
  | none => s
  | some i => { s with subscribers := s.subscribers.eraseIdx i }

/-- Method `set(newValue)` (lines 21-26): `if (state !== newValue) state =
newValue` updates the captured value only when different, then `if
(subscribers.length > 0) subscribers.forEach(s => s(state))` notifies every
subscriber with the (post-assignment) state — the notification loop is NOT
inside the inequality test. -/
def set {V : Type} [DecidableEq V] (s : Store V) (newValue : V) :
    Store V × List (Nat × V) :=
  let state1 := if s.state ≠ newValue then newValue else s.state
  let notes :=
    if s.subscribers.length > 0 then s.subscribers.map (fun l => (l, state1))
    else []
  ({ s with state := state1 }, notes)

end Homemade

namespace ImmerStore

/-!
Embedding of `src/src/immer-store.js` (`immerStore`).  The closure variable
`value` tracks the last value handed to the backing `writable`; `set` calls
the backing `set` only when the new value differs.  The backing
`writable` is external, so a call to it is recorded as an effect.
-/

structure Store (V : Type) where
  value : V
deriving DecidableEq

/-- Function `set(new_value)` (lines 7-11): `if (new_value !== value)
store.set((value = new_value))`.  The returned list records the arguments of
the calls made to the `set` of the backing writable. -/
def set {V : Type} [DecidableEq V] (s : Store V) (new_value : V) :
    Store V × List V :=
  if s.value ≠ new_value then ({ value := new_value }, [new_value])
  else (s, [])

/-- Method `update(fn)` (line 15): `set(produce(value, fn))`, where the
immer `produce` applies `fn` to a draft of `value` and commits the result. -/
def update {V : Type} [DecidableEq V] (s : Store V) (fn : V → V) :
    Store V × List V :=
  set s (fn s.value)

end ImmerStore

namespace Persisted

/-!
Embedding of `src/src/local-storage-store.js` (`createPersistedStore`).
The `localStorage` collaborator is represented by its two fallible
operations: `getItem` (may throw, may find nothing) and `setItem` (may
throw).  Nothing in the source catches these exceptions.
-/

/-- Construction (lines 3-6): `const initialJson = localStorage.getItem(key);
const initialValue = initialJson ? JSON.parse(initialJson) : defaultValue;
const store = writable(initialValue)`.  The result is the initial value the
backing writable is created with; a throw from `getItem` aborts construction
(there is no try/catch). -/
def createPersistedStore {V : Type} (getItem : Except JsError (Option String))
    (parse : String → V) (defaultValue : V) : Except JsError V :=
  match getItem with
  | .error e => .error e
  | .ok initialJson =>
    match initialJson with
    | some s => .ok (parse s)
    | none => .ok defaultValue

/-- The wrapped listener installed by `subscribe` (lines 8-12):
`store.subscribe((current) => { localStorage.setItem(key,
JSON.stringify(current)); return fn(current) })`.  The persistence write runs
BEFORE `fn`; `.ok current` means `fn(current)` was invoked, `.error e` means
the write threw, `fn` never ran, and the exception propagated. -/
def persistNotify {V : Type} (setItem : String → Except JsError Unit)
    (stringify : V → String) (current : V) : Except JsError V :=
  match setItem (stringify current) with
  | .error e => .error e
  | .ok _ => .ok current

end Persisted

namespace SimpleMachine

/-!
Embedding of the homemade state machine `machine` in
`src/unnamed/part_003` (`simple-state-machine-store.js`).  JavaScript
objects used as dispatch tables become association lists keyed by strings;
an absent key is `none`.
-/

/-- Association-list lookup, modelling `obj[key]` on a plain object
(`undefined`, i.e. `none`, when the key is absent). -/
def lookup {α : Type} (k : String) : List (String × α) → Option α
  | [] => none
  | (k1, v) :: rest => if k = k1 then some v else lookup k rest

/-- A state definition: its `on` table maps event names to target state
names. -/
structure StateDef where
  «on» : List (String × String)
deriving DecidableEq

structure MachineConfig where
  init : String
  states : List (String × StateDef)
deriving DecidableEq

/-- The running machine: the closure variable `current_state` plus the
captured `states` table. -/
structure Machine where
  current : String
  states : List (String × StateDef)
deriving DecidableEq

/-- Construction (lines 3-6): `if (!states.hasOwnProperty(init)) throw new
Error(...)`, then `current_state = init` and a writable is created with it. -/
def machine (cfg : MachineConfig) : Except JsError Machine :=
  if (lookup cfg.init cfg.states).isSome then
    .ok { current := cfg.init, states := cfg.states }
  else
    .error (.thrown ("That isn\x27t a state, choose a real init state!"))

/-- JavaScript truthiness of `states[current].on[event]`: `undefined` and the
empty string are falsy. -/
def falsyTarget : Option String → Bool
  | none => true
  | some s => s = ""

/-- Method `send(event)` (lines 8-19).  First `states[current_state].on[event]` is
read; if `current_state` were not a key this would be a TypeError (reading
`.on` of `undefined`).  A falsy handler logs "no such event" and returns; a
handler whose target is not a key of `states` logs "no such state" and
returns; otherwise `current_state` becomes the target and `set(current_state)`
is called on the backing writable.  The `Option String` records the argument
of the `set` call, `none` when no call was made. -/
def send (m : Machine) (event : String) :
    Except JsError (Machine × Option String) :=
  match lookup m.current m.states with
  | none => .error (.typeError ("Cannot read properties of undefined"))
  | some sd =>
    let target := lookup event sd.«on»
    if falsyTarget target then .ok (m, none)
    else
      match target with
      | none => .ok (m, none)
      | some t =>
        if (lookup t m.states).isNone then .ok (m, none)
        else .ok ({ m with current := t }, some t)

/-- The `state_config` literal at the bottom of the file (lines 28-41). -/
def state_config : MachineConfig :=
  { init := "invisible",
    states :=
      [("visible", { «on» := [("HIDE", "invisible")] }),
       ("invisible", { «on» := [("SHOW", "visible")] })] }

end SimpleMachine

namespace Xstate

/-!
Embedding of `src/src/xstate-store.js`.  The machine configuration passed to
`createMachine` (states, targets, `internal` self-transitions, `actions`,
`cond`) and the guard/action functions are embedded from the source.  The
transition engine itself lives in the external `@xstate/fsm` library, which
is not part of the repository, so it is modelled from the spec (see
`fsmSend`).
-/

/-- The machine context `{ dogs: 0 }`; `dogs` is a JavaScript number used as
an integer. -/
structure Ctx where
  dogs : Int
deriving DecidableEq

inductive S where
  | visible
  | invisible
deriving DecidableEq

inductive E where
  | HIDE
  | SHOW
  | INC
  | DEC
deriving DecidableEq

/-- Action `assign({dogs: (context) => context.dogs + 1})` (lines 4-6): an action
mapping pre-transition context (and event) to the next context. -/
def increment (c : Ctx) (_e : E) : Ctx := { dogs := c.dogs + 1 }

/-- Action `assign({dogs: (context) => context.dogs - 1})` (lines 7-9). -/
def decrement (c : Ctx) (_e : E) : Ctx := { dogs := c.dogs - 1 }

/-- The guard `dogsCanChange` (lines 10-14): reject DEC at `dogs <= 0`,
reject INC at `dogs >= 6`, accept everything else. -/
def dogsCanChange (ctx : Ctx) (event : E) : Bool :=
  if event = .DEC ∧ ctx.dogs ≤ 0 then false
  else if event = .INC ∧ ctx.dogs ≥ 6 then false
  else true

/-- One entry of the `on` table of a state: target state, whether the transition
is internal, its assign actions and its optional guard. -/
structure Transition where
  target : S
  internal : Bool
  actions : List (Ctx → E → Ctx)
  cond : Option (Ctx → E → Bool)

structure Machine where
  initial : S
  initialContext : Ctx
  «on» : S → E → Option Transition

/-- The `dog_machine` configuration (lines 37-61): initial `visible`,
context `{dogs: 0}`; `visible` handles HIDE (to `invisible`) and internal
INC/DEC self-transitions with the `increment`/`decrement` actions guarded by
`dogsCanChange`; `invisible` handles SHOW (to `visible`).  An internal
transition has the current state as target. -/
def dog_machine : Machine where
  initial := .visible
  initialContext := { dogs := 0 }
  «on» := fun s e =>
    match s, e with
    | .visible, .HIDE =>
      some { target := .invisible, internal := false, actions := [], cond := none }
    | .visible, .INC =>
      some { target := .visible, internal := true,
             actions := [increment], cond := some dogsCanChange }
    | .visible, .DEC =>
      some { target := .visible, internal := true,
             actions := [decrement], cond := some dogsCanChange }
    | .invisible, .SHOW =>
      some { target := .visible, internal := false, actions := [], cond := none }
    | _, _ => none

/-- A machine configuration: discrete state plus context. -/
abbrev Config := S × Ctx

/-- Modelled from the spec: the transition step of the external `@xstate/fsm`
interpreter (`interpret` / `service.send`), which is not part of this
repository, following spec section 4.2: (1) an event with no handler in the
current state is ignored; (3) a false guard rejects the transition with no
state change, no action and no notification; (4) otherwise the actions run in
order on the context and the state becomes the target; (5) subscribers are
notified only if state or context actually changed.  The boolean is
`state.changed`, which `useMachine` (lines 20-22 of the source) uses to decide
whether to forward the state to the `set` of the readable store. -/
def fsmSend (m : Machine) (cfg : Config) (e : E) : Config × Bool :=
  match m.«on» cfg.1 e with
  | none => (cfg, false)
  | some tr =>
    let accepted :=
      match tr.cond with
      | none => true
      | some g => g cfg.2 e
    if accepted then
      let ctx1 := tr.actions.foldl (fun c a => a c e) cfg.2
      let cfg1 : Config := (tr.target, ctx1)
      (cfg1, decide (cfg1 ≠ cfg))
    else (cfg, false)

/-- The listener `useMachine` installs on the service (lines 20-22):
`service.subscribe((state) => { if (state.changed) set(state) })` — the
`set` of the readable store is called only when the step reported a change.
`some cfg` records the argument of the `set` call, `none` that no call was
made. -/
def useMachineListener (st : Config × Bool) : Option Config :=
  if st.2 then some st.1 else none

/-- Folding `fsmSend` over an event sequence. -/
def runEvents (m : Machine) (cfg : Config) (es : List E) : Config :=
  es.foldl (fun c e => (fsmSend m c e).1) cfg

end Xstate

namespace ImmerActions

/-!
Embedding of `src/src/immer-actions-store.js`.  The store value is
`{visible, dogs}`; each action mutates an immer draft of the value (or
returns a replacement), and `immerActionsStore` wraps each action so that
invoking it commits `produce(action)(state, payload)` through the `update`
of the backing writable.
-/

structure AppState where
  visible : Bool
  dogs : Int
deriving DecidableEq

/-- Literal `const initialState = {visible: false, dogs: 0}` (lines 4-7). -/
def initialState : AppState := { visible := false, dogs := 0 }

/-- The `actions` table (lines 9-25).  `reset` returns the replacement
`initialState`; the others mutate the draft: `show`/`hide` set `visible`,
`inc` does `state.dogs++` unconditionally, `dec` does `if (state.dogs > 0)
state.dogs--`. -/
inductive ActionName where
  | reset
  | «show»
  | hide
  | inc
  | dec
deriving DecidableEq

/-- The committed result of `produce(actions[name])(state)`: the draft after
the mutations of the action (or the replacement it returned). -/
def applyAction : ActionName → AppState → AppState
  | .reset, _ => initialState
  | .«show», s => { s with visible := true }
  | .hide, s => { s with visible := false }
  | .inc, s => { s with dogs := s.dogs + 1 }
  | .dec, s => if s.dogs > 0 then { s with dogs := s.dogs - 1 } else s

/-- Folding a sequence of invoked actions over the store value. -/
def runActions (s : AppState) (as : List ActionName) : AppState :=
  as.foldl (fun st a => applyAction a st) s

end ImmerActions

/-!
Theorems.  Each claim of the specification is settled below against the
embedded definitions.
-/

/-- C1, counterexample: subscribing a listener to the homemade container
with current value `false` invokes the listener zero times during the
`subscribe` call, not exactly once with the current value as the
replay-on-subscribe property requires. -/
theorem homemade_subscribe_no_replay_cex :
    (Homemade.subscribe (Homemade.homemadeStore false) 0).2.length = 0 ∧
    (Homemade.subscribe (Homemade.homemadeStore false) 0).2 ≠ [(0, false)] := by
  constructor
  · rfl
  · decide

/-- C1, amended: `subscribe(listener)` on the homemade container registers
the listener at the end of the subscriber list and returns without invoking
any listener (no replay); the new subscriber first observes a value at the
next `set` call, which notifies it with the post-`set` value. -/
theorem homemade_subscribe_registers_without_replay {V : Type} [DecidableEq V]
    (s : Homemade.Store V) (l : Nat) (v : V) :
    (Homemade.subscribe s l).2 = [] ∧
    (Homemade.subscribe s l).1 =
      { s with subscribers := s.subscribers ++ [l] } ∧
    (l, (Homemade.set (Homemade.subscribe s l).1 v).1.state) ∈
      (Homemade.set (Homemade.subscribe s l).1 v).2 := by
  refine ⟨rfl, rfl, ?_⟩
  simp [Homemade.set, Homemade.subscribe, List.mem_map]

/-- C3, counterexample: on the homemade container holding `false` with one
subscribed listener, `set(false)` (a value equal to the current one) still
produces one notification, not zero — the equality test in the source guards
only the assignment, not the notification loop. -/
theorem homemade_equal_set_notifies_cex :
    (Homemade.set { subscribers := [0], state := false } false).2 =
      [(0, false)] ∧
    (Homemade.set { subscribers := [0], state := false } false).2.length ≠ 0 := by
  decide

/-- C3, amended: `set` with an equal value leaves the stored value
unchanged, but while the immer container then performs no backing `set`
call (zero notifications), the homemade container still notifies every
currently subscribed listener exactly once, in subscription order, with the
unchanged value; `set` with an unequal value stores it and notifies every
currently subscribed listener exactly once, in subscription order, with the
new value (the immer container makes exactly one backing `set` call with
it). -/
theorem set_semantics_amended {V : Type} [DecidableEq V]
    (s : Homemade.Store V) (t : ImmerStore.Store V) (v : V) :
    (s.state = v →
      (Homemade.set s v).1 = s ∧
      (Homemade.set s v).2 = s.subscribers.map (fun l => (l, s.state))) ∧
    (s.state ≠ v →
      (Homemade.set s v).1 =
        { subscribers := s.subscribers, state := v } ∧
      (Homemade.set s v).2 = s.subscribers.map (fun l => (l, v))) ∧
    (t.value = v → ImmerStore.set t v = (t, [])) ∧
    (t.value ≠ v → ImmerStore.set t v = ({ value := v }, [v])) := by
  refine ⟨fun he => ?_, fun hne => ?_, fun he => ?_, fun hne => ?_⟩
  · subst he
    constructor
    · simp [Homemade.set]
    · simp [Homemade.set]
  · constructor
    · simp [Homemade.set, hne]
    · simp [Homemade.set, hne]
  · obtain ⟨tv⟩ := t
    subst he
    simp [ImmerStore.set]
  · simp [ImmerStore.set, hne]

/-- C3, witness for `set_semantics_amended` at concrete inputs: equal and
unequal sets on the homemade container with one subscriber, and on the
immer container. -/
theorem set_semantics_amended_witness :
    (Homemade.set { subscribers := [0], state := false } false).2 =
      [(0, false)] ∧
    (Homemade.set { subscribers := [0], state := false } true).2 =
      [(0, true)] ∧
    ImmerStore.set { value := false } false = ({ value := false }, []) ∧
    ImmerStore.set { value := false } true = ({ value := true }, [true]) :=
  ⟨((set_semantics_amended { subscribers := [0], state := false }
      { value := false } false).1 rfl).2,
   ((set_semantics_amended { subscribers := [0], state := false }
      { value := false } true).2.1 (by decide)).2,
   (set_semantics_amended { subscribers := [0], state := false }
      { value := false } false).2.2.1 rfl,
   (set_semantics_amended { subscribers := [0], state := false }
      { value := false } true).2.2.2 (by decide)⟩

/-- C4: evaluating the unsubscribe closure returned by the homemade
container, here on the store obtained by subscribing listener 0 to
`homemadeStore(false)`: the call throws `ReferenceError` on the unbound
identifier `subscriber` instead of removing the registration, so the
specified idempotent, non-throwing unsubscribe does not hold of the code as
written. -/
theorem homemade_unsubscribe_throws :
    Homemade.unsubscribe
        (Homemade.subscribe (Homemade.homemadeStore false) 0).1 =
      .error (.referenceError ("subscriber")) ∧
    Homemade.unsubscribeIntended
        (Homemade.unsubscribeIntended
          (Homemade.subscribe (Homemade.homemadeStore false) 0).1 0) 0 =
      Homemade.homemadeStore false := by
  constructor
  · rfl
  · decide

/-- C5, counterexample: with a backing store whose write throws, the wrapped
listener of the persisted container propagates the exception and the
in-memory notification never reaches the listener (the write precedes the
listener call and nothing catches the throw). -/
theorem persisted_write_failure_blocks_notification :
    Persisted.persistNotify (fun _ => .error (.thrown ("QuotaExceededError")))
        (fun _ : Bool => ("json")) true =
      .error (.thrown ("QuotaExceededError")) ∧
    Persisted.persistNotify (fun _ => .error (.thrown ("QuotaExceededError")))
        (fun _ : Bool => ("json")) true ≠ .ok true := by
  constructor
  · rfl
  · intro h
    exact Except.noConfusion h

/-- C5, amended: backing-store failures propagate in the persisted
container: a throwing read at construction makes construction itself fail
with that error, and a throwing write on change propagates out of the
wrapped listener and prevents the in-memory notification from reaching the
listener; only when the backing write succeeds does the listener receive the
current value. -/
theorem persisted_failure_propagation {V : Type}
    (setItem : String → Except JsError Unit) (stringify : V → String)
    (getItem : Except JsError (Option String)) (parse : String → V)
    (defaultValue v : V) (e : JsError) :
    (setItem (stringify v) = .error e →
      Persisted.persistNotify setItem stringify v = .error e) ∧
    (setItem (stringify v) = .ok () →
      Persisted.persistNotify setItem stringify v = .ok v) ∧
    (getItem = .error e →
      Persisted.createPersistedStore getItem parse defaultValue = .error e) := by
  refine ⟨fun h => ?_, fun h => ?_, fun h => ?_⟩
  · simp [Persisted.persistNotify, h]
  · simp [Persisted.persistNotify, h]
  · simp [Persisted.createPersistedStore, h]

/-- C5, witness for `persisted_failure_propagation` at concrete inputs over
`Bool` values: a throwing write, a succeeding write and a throwing read. -/
theorem persisted_failure_propagation_witness :
    Persisted.persistNotify (fun _ => .error (.thrown ("fail")))
        (fun _ : Bool => ("json")) true = .error (.thrown ("fail")) ∧
    Persisted.persistNotify (fun _ => .ok ()) (fun _ : Bool => ("json")) true =
      .ok true ∧
    Persisted.createPersistedStore (.error (.thrown ("fail")))
        (fun _ => false) true = .error (.thrown ("fail")) :=
  ⟨(persisted_failure_propagation (fun _ => .error (.thrown ("fail")))
      (fun _ : Bool => ("json")) (.ok none) (fun _ => false) true true
      (.thrown ("fail"))).1 rfl,
   (persisted_failure_propagation (fun _ => .ok ()) (fun _ : Bool => ("json"))
      (.ok none) (fun _ => false) true true (.thrown ("fail"))).2.1 rfl,
   (persisted_failure_propagation (fun _ => .ok ()) (fun _ : Bool => ("json"))
      (.error (.thrown ("fail"))) (fun _ => false) true true
      (.thrown ("fail"))).2.2 rfl⟩

/-- C6: constructing the simple state machine succeeds (with the given
initial state current) exactly when the initial state name is a key of the
states table, and otherwise throws the construction-time error — the
InvalidConfiguration failure of the specification. -/
theorem machine_init_validation (cfg : SimpleMachine.MachineConfig) :
    ((SimpleMachine.lookup cfg.init cfg.states).isSome →
      SimpleMachine.machine cfg =
        .ok { current := cfg.init, states := cfg.states }) ∧
    ((SimpleMachine.lookup cfg.init cfg.states).isNone →
      SimpleMachine.machine cfg =
        .error (.thrown ("That isn\x27t a state, choose a real init state!"))) := by
  refine ⟨fun h => ?_, fun h => ?_⟩
  · simp [SimpleMachine.machine, h]
  · rw [Option.isNone_iff_eq_none] at h
    simp [SimpleMachine.machine, h]

/-- C6, witness for `machine_init_validation`: the `state_config` of the
source (initial state `invisible`, a key) constructs successfully, and the
same table with the absent initial state name `missing` throws. -/
theorem machine_init_validation_witness :
    SimpleMachine.machine SimpleMachine.state_config =
      .ok { current := ("invisible"),
            states := SimpleMachine.state_config.states } ∧
    SimpleMachine.machine
        { init := ("missing"), states := SimpleMachine.state_config.states } =
      .error (.thrown ("That isn\x27t a state, choose a real init state!")) :=
  ⟨(machine_init_validation SimpleMachine.state_config).1 (by decide),
   (machine_init_validation
      { init := ("missing"),
        states := SimpleMachine.state_config.states }).2 (by decide)⟩

/-- C7: when the current state is in the states table but its `on` table has
no handler for the sent event, `send` is a no-op and not an error: it
returns `.ok` with the machine unchanged (same current state, and this
machine carries no context beyond it) and makes no `set` call on the backing
writable, so no notification is emitted. -/
theorem unknown_event_ignored (m : SimpleMachine.Machine)
    (sd : SimpleMachine.StateDef) (event : String)
    (h1 : SimpleMachine.lookup m.current m.states = some sd)
    (h2 : SimpleMachine.lookup event sd.«on» = none) :
    SimpleMachine.send m event = .ok (m, none) := by
  simp [SimpleMachine.send, h1, h2, SimpleMachine.falsyTarget]

/-- C7, witness for `unknown_event_ignored`: the machine of `state_config`
in state `invisible` ignores the event `HIDE`, which only `visible`
handles. -/
theorem unknown_event_ignored_witness :
    SimpleMachine.send
        { current := ("invisible"), states := SimpleMachine.state_config.states }
        ("HIDE") =
      .ok ({ current := ("invisible"),
             states := SimpleMachine.state_config.states }, none) :=
  unknown_event_ignored
    { current := ("invisible"), states := SimpleMachine.state_config.states }
    { «on» := [(("SHOW"), ("visible"))] } ("HIDE") (by decide) (by decide)

/-- C2: in the guarded dog machine, a DEC event at `dogs <= 0` is rejected —
the configuration (state and context) is unchanged, the step is not marked
changed, and the `useMachine` listener therefore makes no `set` call — an
INC event at `dogs >= 6` is likewise rejected, and for every counter value
strictly between the bounds the guard accepts both counter-changing
events. -/
theorem dogsCanChange_guard_bounds (d : Int) :
    (d ≤ 0 →
      Xstate.fsmSend Xstate.dog_machine (.visible, { dogs := d }) .DEC =
        ((.visible, { dogs := d }), false) ∧
      Xstate.useMachineListener
        (Xstate.fsmSend Xstate.dog_machine (.visible, { dogs := d }) .DEC) =
        none) ∧
    (6 ≤ d →
      Xstate.fsmSend Xstate.dog_machine (.visible, { dogs := d }) .INC =
        ((.visible, { dogs := d }), false) ∧
      Xstate.useMachineListener
        (Xstate.fsmSend Xstate.dog_machine (.visible, { dogs := d }) .INC) =
        none) ∧
    (0 < d → d < 6 →
      Xstate.dogsCanChange { dogs := d } .DEC = true ∧
      Xstate.dogsCanChange { dogs := d } .INC = true) := by
  refine ⟨fun h => ?_, fun h => ?_, fun h1 h2 => ?_⟩
  · have h1 : Xstate.fsmSend Xstate.dog_machine (.visible, { dogs := d })
        .DEC = ((.visible, { dogs := d }), false) := by
      simp [Xstate.fsmSend, Xstate.dog_machine, Xstate.dogsCanChange, h]
    exact ⟨h1, by rw [h1]; rfl⟩
  · have h1 : Xstate.fsmSend Xstate.dog_machine (.visible, { dogs := d })
        .INC = ((.visible, { dogs := d }), false) := by
      simp [Xstate.fsmSend, Xstate.dog_machine, Xstate.dogsCanChange, h]
    exact ⟨h1, by rw [h1]; rfl⟩
  · constructor
    · simp [Xstate.dogsCanChange]
      omega
    · simp [Xstate.dogsCanChange]
      omega

/-- C2, witness for `dogsCanChange_guard_bounds`: DEC is rejected at
`dogs = 0`, INC is rejected at `dogs = 6`, and both are accepted by the
guard at `dogs = 3`. -/
theorem dogsCanChange_guard_bounds_witness :
    Xstate.fsmSend Xstate.dog_machine (.visible, { dogs := 0 }) .DEC =
      ((.visible, { dogs := 0 }), false) ∧
    Xstate.fsmSend Xstate.dog_machine (.visible, { dogs := 6 }) .INC =
      ((.visible, { dogs := 6 }), false) ∧
    Xstate.dogsCanChange { dogs := 3 } .DEC = true ∧
    Xstate.dogsCanChange { dogs := 3 } .INC = true :=
  ⟨((dogsCanChange_guard_bounds 0).1 (by decide)).1,
   ((dogsCanChange_guard_bounds 6).2.1 (by decide)).1,
   (dogsCanChange_guard_bounds 3).2.2 (by decide) (by decide)⟩

/-- C8: from the initial configuration of the dog machine (`visible`,
`{dogs: 0}`), sending INC, SHOW, HIDE ends in state `invisible` with
context `{dogs: 1}`; the intermediate SHOW (sent while already `visible`,
which has no SHOW handler) is a no-op step that reports no change. -/
theorem dog_machine_inc_show_hide :
    Xstate.runEvents Xstate.dog_machine
        (Xstate.dog_machine.initial, Xstate.dog_machine.initialContext)
        [.INC, .SHOW, .HIDE] = (.invisible, { dogs := 1 }) ∧
    Xstate.fsmSend Xstate.dog_machine (.visible, { dogs := 1 }) .SHOW =
      ((.visible, { dogs := 1 }), false) := by
  constructor
  · rfl
  · rfl

/-- Helper for C9: one step of the dog machine preserves the counter
bounds. -/
theorem dog_step_bounds (cfg : Xstate.Config) (e : Xstate.E)
    (h0 : 0 ≤ cfg.2.dogs) (h6 : cfg.2.dogs ≤ 6) :
    0 ≤ ((Xstate.fsmSend Xstate.dog_machine cfg e).1).2.dogs ∧
    ((Xstate.fsmSend Xstate.dog_machine cfg e).1).2.dogs ≤ 6 := by
  obtain ⟨s, d⟩ := cfg
  obtain ⟨d⟩ := d
  cases s <;> cases e <;>
    simp_all [Xstate.fsmSend, Xstate.dog_machine, Xstate.dogsCanChange,
      Xstate.increment, Xstate.decrement] <;>
    split_ifs <;> simp_all <;> omega

/-- C9: every configuration reachable from the initial configuration of the
dog machine by any event sequence keeps the counter within `0 <= dogs <= 6`,
and its discrete state is one of the two states of the machine table,
`visible` or `invisible`. -/
theorem dog_machine_reachable_invariant (es : List Xstate.E) :
    0 ≤ (Xstate.runEvents Xstate.dog_machine
        (Xstate.dog_machine.initial, Xstate.dog_machine.initialContext)
        es).2.dogs ∧
    (Xstate.runEvents Xstate.dog_machine
        (Xstate.dog_machine.initial, Xstate.dog_machine.initialContext)
        es).2.dogs ≤ 6 ∧
    ((Xstate.runEvents Xstate.dog_machine
        (Xstate.dog_machine.initial, Xstate.dog_machine.initialContext)
        es).1 = Xstate.S.visible ∨
     (Xstate.runEvents Xstate.dog_machine
        (Xstate.dog_machine.initial, Xstate.dog_machine.initialContext)
        es).1 = Xstate.S.invisible) := by
  have key : ∀ (l : List Xstate.E) (cfg : Xstate.Config),
      0 ≤ cfg.2.dogs → cfg.2.dogs ≤ 6 →
      0 ≤ (Xstate.runEvents Xstate.dog_machine cfg l).2.dogs ∧
      (Xstate.runEvents Xstate.dog_machine cfg l).2.dogs ≤ 6 := by
    intro l
    induction l with
    | nil => exact fun cfg h0 h6 => ⟨h0, h6⟩
    | cons e rest ih =>
      intro cfg h0 h6
      have hstep := dog_step_bounds cfg e h0 h6
      simpa [Xstate.runEvents] using
        ih (Xstate.fsmSend Xstate.dog_machine cfg e).1 hstep.1 hstep.2
  refine ⟨(key es _ (by decide) (by decide)).1,
    (key es _ (by decide) (by decide)).2, ?_⟩
  cases h : (Xstate.runEvents Xstate.dog_machine
      (Xstate.dog_machine.initial, Xstate.dog_machine.initialContext) es).1
  · exact Or.inl rfl
  · exact Or.inr rfl

/-- C10: every action of the immer-actions store preserves `dogs >= 0`;
`dec` invoked at `dogs = 0` leaves the store value unchanged, and `inc`
always increments `dogs` by one, with no upper bound. -/
theorem actions_preserve_dogs_nonneg (a : ImmerActions.ActionName)
    (s : ImmerActions.AppState) :
    (0 ≤ s.dogs → 0 ≤ (ImmerActions.applyAction a s).dogs) ∧
    (s.dogs = 0 → ImmerActions.applyAction .dec s = s) ∧
    ImmerActions.applyAction .inc s = { s with dogs := s.dogs + 1 } := by
  refine ⟨fun h => ?_, fun h => ?_, rfl⟩
  · cases a
    · simp [ImmerActions.applyAction, ImmerActions.initialState]
    · simpa [ImmerActions.applyAction] using h
    · simpa [ImmerActions.applyAction] using h
    · simp only [ImmerActions.applyAction]
      omega
    · simp only [ImmerActions.applyAction]
      split_ifs with hd
      · simp
        omega
      · exact h
  · simp [ImmerActions.applyAction, h]

/-- C10, witness for `actions_preserve_dogs_nonneg`: `dec` at the state
`{visible: true, dogs: 0}` keeps the counter nonnegative and leaves the
value unchanged. -/
theorem actions_preserve_dogs_nonneg_witness :
    0 ≤ (ImmerActions.applyAction .dec
        { visible := true, dogs := 0 }).dogs ∧
    ImmerActions.applyAction .dec { visible := true, dogs := 0 } =
      { visible := true, dogs := 0 } :=
  ⟨(actions_preserve_dogs_nonneg .dec
      { visible := true, dogs := 0 }).1 (by decide),
   (actions_preserve_dogs_nonneg .dec
      { visible := true, dogs := 0 }).2.1 (by decide)⟩
